import Mathlib

/-!
Shallow embedding of the FFI binding layer of `mycrl/webrtc`
(`src/ffi/mod.rs` over the raw ABI declarations of `src/ffi/raw.rs`).

Modelling conventions:
* A C `char` is a `Nat`; `0` is the NUL terminator.
* A pointer (address) is a `Nat`; `0` models the null pointer, and real
  addresses start at 1.
* Heap allocation is explicit: a `Mem` value carries a fresh-address counter
  and the association list of live allocations, so that buffer lifetimes
  (allocation by `CString::new`, release by `Drop`) are observable.
* Rust panics (`Option::unwrap` on `None`) are modelled as `Except.error`:
  the computation aborts and produces no updated state.
* The asynchronous bridge (`CreateSessionDescription` and its `Future::poll`)
  is modelled as a state machine over the fields of the Rust struct, with an
  instrumentation counter for native entry-point invocations and for wakes
  delivered through the shared `AtomicWaker`.
-/

/-- Allocator state: the next fresh address and the live allocations
(address together with buffer contents, most recent first). -/
structure Mem where
  next : Nat
  heap : List (Nat × List Nat)
deriving DecidableEq, Repr

/-- The empty allocator: no live allocations, fresh addresses start at 1. -/
def Mem.empty : Mem := ⟨1, []⟩

/-- Allocate a buffer with contents `bs`, returning its address. -/
def Mem.alloc (m : Mem) (bs : List Nat) : Nat × Mem :=
  (m.next, ⟨m.next + 1, (m.next, bs) :: m.heap⟩)

/-- Release the allocation at address `p` (a Rust `Drop` of its owner). -/
def Mem.free (m : Mem) (p : Nat) : Mem :=
  ⟨m.next, m.heap.filter (fun e => e.1 ≠ p)⟩

/-- The contents of the live buffer at address `p`, if `p` is live. -/
def Mem.lookup (m : Mem) (p : Nat) : Option (List Nat) :=
  (m.heap.find? (fun e => e.1 = p)).map Prod.snd

/-- Whether the address `p` is a live allocation. -/
def Mem.live (m : Mem) (p : Nat) : Bool :=
  (m.heap.find? (fun e => e.1 = p)).isSome

/-- A Rust panic. `nulError` is `CString::new(..).unwrap()` aborting on an
input with an embedded NUL byte (`NulError`). -/
inductive Panic
  | nulError
deriving DecidableEq, Repr

/-- `std::ffi::CString`: the owner of a heap buffer holding the text bytes
followed by a terminating NUL. The buffer contents live in the `Mem` heap. -/
structure CString where
  ptr : Nat
deriving DecidableEq, Repr

/-- `CString::new`: fails (with `NulError`) when the input contains an
embedded NUL byte; otherwise allocates an owned buffer holding the input
followed by the NUL terminator. -/
def CString.new (m : Mem) (s : List Nat) : Option (CString × Mem) :=
  if 0 ∈ s then none
  else
    let (p, m') := m.alloc (s ++ [0])
    some (⟨p⟩, m')

/-- `url.as_c_str().as_ptr()`: the address of the owned buffer. -/
def CString.as_ptr (c : CString) : Nat := c.ptr

/-- `urls.iter().map(|url| CString::new(*url).unwrap()).collect()`: allocate
one `CString` per input, left to right; `none` models the panic taken when
some input holds an embedded NUL. -/
def cstringsNew : Mem → List (List Nat) → Option (List CString × Mem)
  | m, [] => some ([], m)
  | m, u :: rest =>
    (CString.new m u).bind fun cm =>
      (cstringsNew cm.2 rest).map fun csm => (cm.1 :: csm.1, csm.2)

/-! ## Raw ABI layer (`src/ffi/raw.rs`)

Enums carry the explicit discriminants of the native header (starting at 1).
`Option` on a pointer-typed field mirrors the nullable pointer of the ABI:
`none` serializes to a genuine null pointer. A field that in the ABI points
at an array is modelled as the list of that array's elements (the view of
the Vec buffer it points into). -/

/-- `raw::BundelPolicy` (discriminants 1, 2, 3). -/
inductive raw.BundelPolicy
  | Balanced
  | MaxCompat
  | MaxBundle
deriving DecidableEq, Repr

/-- The explicit integer discriminant of `raw::BundelPolicy` (starts at 1). -/
def raw.BundelPolicy.discriminant : raw.BundelPolicy → Nat
  | .Balanced => 1
  | .MaxCompat => 2
  | .MaxBundle => 3

/-- `raw::IceTransportPolicy` (discriminants 1, 2, 3, 4). -/
inductive raw.IceTransportPolicy
  | None
  | Relay
  | Public
  | All
deriving DecidableEq, Repr

/-- The explicit integer discriminant of `raw::IceTransportPolicy`. -/
def raw.IceTransportPolicy.discriminant : raw.IceTransportPolicy → Nat
  | .None => 1
  | .Relay => 2
  | .Public => 3
  | .All => 4

/-- `raw::RtcpMuxPolicy` (discriminants 1, 2). -/
inductive raw.RtcpMuxPolicy
  | Negotiate
  | Require
deriving DecidableEq, Repr

/-- The explicit integer discriminant of `raw::RtcpMuxPolicy`. -/
def raw.RtcpMuxPolicy.discriminant : raw.RtcpMuxPolicy → Nat
  | .Negotiate => 1
  | .Require => 2

/-- `raw::RtcSessionDescriptionType` (discriminants 1, 2, 3, 4). -/
inductive raw.RtcSessionDescriptionType
  | Offer
  | PrAnswer
  | Answer
  | Rollback
deriving DecidableEq, Repr

/-- The explicit integer discriminant of `raw::RtcSessionDescriptionType`. -/
def raw.RtcSessionDescriptionType.discriminant : raw.RtcSessionDescriptionType → Nat
  | .Offer => 1
  | .PrAnswer => 2
  | .Answer => 3
  | .Rollback => 4

/-- `raw::RTCIceServer` (field order of the source: credential, urls,
urls_size, username). `urls` is the view of the pointer array: its elements
are the `*const c_char` entries. -/
structure raw.RTCIceServer where
  credential : Option Nat
  urls : Option (List Nat)
  urls_size : Int
  username : Option Nat
deriving DecidableEq, Repr

/-- `raw::RTCPeerConnectionConfigure`. `ice_servers` is the view of the
array of raw ICE-server structs. -/
structure raw.RTCPeerConnectionConfigure where
  bundle_policy : Option raw.BundelPolicy
  ice_transport_policy : Option raw.IceTransportPolicy
  peer_identity : Option Nat
  rtcp_mux_policy : Option raw.RtcpMuxPolicy
  ice_servers : Option (List raw.RTCIceServer)
  ice_servers_size : Int
  ice_candidate_pool_size : Option Int
deriving DecidableEq, Repr

/-- `raw::RTCSessionDescription`: a typed discriminant and a pointer to the
NUL-terminated SDP text. -/
structure raw.RTCSessionDescription where
  type : raw.RtcSessionDescriptionType
  sdp : Nat
deriving DecidableEq, Repr

/-! ## Safe binding layer (`src/ffi/mod.rs`) -/

/-- The `RTCIceServer` builder: owned NUL-terminated buffers plus the derived
pointer array (`urls`) into the owned `raw_urls` buffers. -/
structure RTCIceServer where
  credential : Option CString
  username : Option CString
  urls : Option (List Nat)
  raw_urls : List CString
deriving DecidableEq, Repr

/-- `#[derive(Default)]` for the builder: everything unset. -/
def RTCIceServer.default : RTCIceServer :=
  { credential := none, username := none, urls := none, raw_urls := [] }

/-- `set_credential`: `self.credential = Some(CString::new(credential).unwrap())`.
The assignment drops (frees) the previously owned credential buffer, if any.
`CString::new(..).unwrap()` panics on an embedded NUL. -/
def RTCIceServer.set_credential (m : Mem) (b : RTCIceServer) (credential : List Nat) :
    Except Panic (RTCIceServer × Mem) :=
  match CString.new m credential with
  | none => .error .nulError
  | some (c, m') =>
    let m'' := match b.credential with
      | some old => m'.free old.ptr
      | none => m'
    .ok ({ b with credential := some c }, m'')

/-- `set_username`: `self.username = Some(CString::new(username).unwrap())`,
with the same drop-on-assignment and panic-on-NUL behaviour. -/
def RTCIceServer.set_username (m : Mem) (b : RTCIceServer) (username : List Nat) :
    Except Panic (RTCIceServer × Mem) :=
  match CString.new m username with
  | none => .error .nulError
  | some (c, m') =>
    let m'' := match b.username with
      | some old => m'.free old.ptr
      | none => m'
    .ok ({ b with username := some c }, m'')

/-- `set_urls`: collect owned `CString`s for every input (panicking on an
embedded NUL), assign them to `raw_urls` — dropping (freeing) the previously
owned buffers — and derive the pointer array from the new buffers. -/
def RTCIceServer.set_urls (m : Mem) (b : RTCIceServer) (urls : List (List Nat)) :
    Except Panic (RTCIceServer × Mem) :=
  match cstringsNew m urls with
  | none => .error .nulError
  | some (cs, m₁) =>
    let m₂ := b.raw_urls.foldl (fun mm c => mm.free c.ptr) m₁
    .ok ({ b with raw_urls := cs, urls := some (cs.map CString.as_ptr) }, m₂)

/-- `as_raw`: the transient ABI view of the builder. -/
def RTCIceServer.as_raw (b : RTCIceServer) : raw.RTCIceServer :=
  { credential := b.credential.map CString.as_ptr
    urls := b.urls
    urls_size := match b.urls with
      | some urls => (urls.length : Int)
      | none => 0
    username := b.username.map CString.as_ptr }

/-- Dropping the builder frees every buffer it owns (its `CString` fields and
the `raw_urls` vector's elements). -/
def RTCIceServer.drop (m : Mem) (b : RTCIceServer) : Mem :=
  let m₁ := match b.credential with
    | some c => m.free c.ptr
    | none => m
  let m₂ := match b.username with
    | some c => m₁.free c.ptr
    | none => m₁
  b.raw_urls.foldl (fun mm c => mm.free c.ptr) m₂

/-- The `RTCConfiguration` builder. -/
structure RTCConfiguration where
  bundle_policy : Option raw.BundelPolicy
  ice_transport_policy : Option raw.IceTransportPolicy
  peer_identity : Option CString
  rtcp_mux_policy : Option raw.RtcpMuxPolicy
  ice_servers : Option (List raw.RTCIceServer)
  ice_candidate_pool_size : Option Nat
deriving DecidableEq, Repr

/-- `#[derive(Default)]` for the configuration builder: everything unset. -/
def RTCConfiguration.default : RTCConfiguration :=
  { bundle_policy := none, ice_transport_policy := none, peer_identity := none
    rtcp_mux_policy := none, ice_servers := none, ice_candidate_pool_size := none }

/-- `set_peer_identity`: `CString::new(peer_identity).unwrap()` stored into
the builder; panics on an embedded NUL, drops the previous buffer. -/
def RTCConfiguration.set_peer_identity (m : Mem) (cfg : RTCConfiguration)
    (peer_identity : List Nat) : Except Panic (RTCConfiguration × Mem) :=
  match CString.new m peer_identity with
  | none => .error .nulError
  | some (c, m') =>
    let m'' := match cfg.peer_identity with
      | some old => m'.free old.ptr
      | none => m'
    .ok ({ cfg with peer_identity := some c }, m'')

/-- `set_ice_servers(ice_servers: Vec<RTCIceServer>)`: stores the derived raw
views `ice_servers.iter().map(|i| i.as_raw()).collect()`; the argument vector
is taken by value, so every builder in it — together with all buffers those
builders own — is dropped when the function returns. -/
def RTCConfiguration.set_ice_servers (m : Mem) (cfg : RTCConfiguration)
    (ice_servers : List RTCIceServer) : RTCConfiguration × Mem :=
  ({ cfg with ice_servers := some (ice_servers.map RTCIceServer.as_raw) },
   ice_servers.foldl RTCIceServer.drop m)

/-- `RTCConfiguration::as_raw`: the transient ABI view of the builder. -/
def RTCConfiguration.as_raw (cfg : RTCConfiguration) : raw.RTCPeerConnectionConfigure :=
  { bundle_policy := cfg.bundle_policy
    ice_transport_policy := cfg.ice_transport_policy
    rtcp_mux_policy := cfg.rtcp_mux_policy
    peer_identity := cfg.peer_identity.map CString.as_ptr
    ice_candidate_pool_size := cfg.ice_candidate_pool_size.map (fun i => (i : Int))
    ice_servers := cfg.ice_servers
    ice_servers_size := match cfg.ice_servers with
      | some i => (i.length : Int)
      | none => 0 }

/-- Which deallocator releases a buffer. The claim at issue distinguishes
the native `rtc_free` entry point from a deallocation mismatched to the
native allocator (here: Rust's global allocator via `CString`'s `Drop`). -/
inductive Deallocator
  | rustGlobal
  | rtcFree
deriving DecidableEq, Repr

/-- `CString::from_raw(p)`: takes ownership of the buffer at `p`; the
resulting `CString` releases that buffer through the Rust global allocator
when dropped. -/
def CString.from_raw (p : Nat) : CString := ⟨p⟩

/-- The deallocator a `CString`'s destructor uses: always the Rust global
allocator (`std` behaviour of `CString`'s `Drop`). -/
def CString.dropDeallocator (_ : CString) : Deallocator := .rustGlobal

/-- The safe `RTCSessionDescription`: a typed discriminant plus an owned
`CString` holding the SDP text. -/
structure RTCSessionDescription where
  type : raw.RtcSessionDescriptionType
  sdp : CString
deriving DecidableEq, Repr

/-- `RTCSessionDescription::from_raw`: dereferences the native struct
(modelled by passing the pointee) and takes the `sdp` buffer over with
`CString::from_raw(raw.sdp as *mut c_char)`. -/
def RTCSessionDescription.from_raw (r : raw.RTCSessionDescription) :
    RTCSessionDescription :=
  { type := r.type, sdp := CString.from_raw r.sdp }

/-- Number of `rtc_free` call sites in the safe binding layer: the extern is
declared in `raw.rs` (line 370) but never invoked anywhere in `mod.rs`. -/
def rtcFreeCallSitesInBindingLayer : Nat := 0

/-- The error values the safe layer produces (`anyhow!` messages in the
source): `connectionCreationFailed` is `anyhow!("crate RTCPeerConnection
failed!")`, `negotiationFailed` is `anyhow!("create offer failed!")`. -/
inductive RTCError
  | connectionCreationFailed
  | negotiationFailed
deriving DecidableEq, Repr

/-- The safe `RTCPeerConnection`: the opaque native handle (`raw` in the
source) bundled with the boxed configuration snapshot it was created from.
The `config` field is listed first only because the field name `raw` would
otherwise shadow the `raw` ABI namespace during elaboration. -/
structure RTCPeerConnection where
  config : raw.RTCPeerConnectionConfigure
  raw : Nat
deriving DecidableEq, Repr

/-- `RTCPeerConnection::new`: materialize the ABI snapshot, invoke the native
creation entry point (modelled by the oracle `native` giving the pointer the
native call returns), and fail with `connectionCreationFailed` on a null
return; otherwise bundle handle and configuration. -/
def RTCPeerConnection.new (native : raw.RTCPeerConnectionConfigure → Nat)
    (config : RTCConfiguration) : Except RTCError RTCPeerConnection :=
  let cfg := config.as_raw
  let r := native cfg
  if r = 0 then .error .connectionCreationFailed
  else .ok { raw := r, config := cfg }

/-! ## Asynchronous operation bridge (`CreateSessionDescription`) -/

/-- `CreateSessionDescriptionKind` (offer or answer). -/
inductive CreateSessionDescriptionKind
  | Offer
  | Answer
deriving DecidableEq, Repr

/-- The state of a `CreateSessionDescription` awaitable, together with the
state of the cell it shares with the native callback:
* `desc` is the shared `Arc<AtomicPtr<raw::RTCSessionDescription>>` slot
  (`0` models null, the initial value);
* `waker_wakes` counts the `wake()` calls delivered through the shared
  `Arc<AtomicWaker>` (instrumentation of the wake side effect);
* `begin` is the `begin: bool` field of the Rust struct. -/
structure CreateSessionDescription where
  kind : CreateSessionDescriptionKind
  peer : Nat
  desc : Nat
  waker_wakes : Nat
  begin : Bool
deriving DecidableEq, Repr

/-- `CreateSessionDescription::new`: fresh waker, null slot, `begin: false`. -/
def CreateSessionDescription.new (peer : Nat) (kind : CreateSessionDescriptionKind) :
    CreateSessionDescription :=
  { kind := kind, peer := peer, desc := 0, waker_wakes := 0, begin := false }

/-- `RTCPeerConnection::create_offer`. -/
def RTCPeerConnection.create_offer (pc : RTCPeerConnection) : CreateSessionDescription :=
  CreateSessionDescription.new pc.raw .Offer

/-- `RTCPeerConnection::create_answer`. -/
def RTCPeerConnection.create_answer (pc : RTCPeerConnection) : CreateSessionDescription :=
  CreateSessionDescription.new pc.raw .Answer

/-- The trampoline `extern "C" fn callback(desc, ctx)` inside `poll`: it
reclaims the context box and then runs the stored closure — which stores
`desc` into the shared slot and wakes the registered waker — ONLY under the
source's guard `if desc.is_null()`; for a non-null `desc` the closure is not
run and the trampoline only prints. `d = 0` models a null `desc`. -/
def CreateSessionDescription.callback (s : CreateSessionDescription) (d : Nat) :
    CreateSessionDescription :=
  if d = 0 then
    { s with desc := d, waker_wakes := s.waker_wakes + 1 }
  else
    s

/-- Instrumentation: invocation counts of the native async entry points. -/
structure NativeCalls where
  rtc_create_offer : Nat
  rtc_create_answer : Nat
deriving DecidableEq, Repr

/-- Equality of `Except` values is decidable when it is on both sides. -/
instance instDecEqExcept {ε α : Type} [DecidableEq ε] [DecidableEq α] :
    DecidableEq (Except ε α) := fun x y =>
  match x, y with
  | .error a, .error b =>
    if h : a = b then .isTrue (h ▸ rfl)
    else .isFalse (fun hh => h (Except.error.inj hh))
  | .ok a, .ok b =>
    if h : a = b then .isTrue (h ▸ rfl)
    else .isFalse (fun hh => h (Except.ok.inj hh))
  | .error _, .ok _ => .isFalse (fun hh => Except.noConfusion hh)
  | .ok _, .error _ => .isFalse (fun hh => Except.noConfusion hh)

/-- `Poll<Result<RTCSessionDescription>>`:
`ready (.ok p)` stands for `Poll::Ready(Ok(RTCSessionDescription::from_raw(p)))`
— the resolved non-null payload pointer — and `ready (.error e)` for
`Poll::Ready(Err(..))`. -/
inductive PollOut
  | pending
  | ready (r : Except RTCError Nat)
deriving DecidableEq, Repr

/-- `Future::poll` for `CreateSessionDescription`: registers the waker; on
`begin == false` builds the context, hands it to `rtc_create_offer` /
`rtc_create_answer` (counted in `calls`), sets `begin` and returns
`Poll::Pending`; on `begin == true` loads the shared slot and returns
`Poll::Ready` — an error for a null slot, otherwise the payload pointer. -/
def CreateSessionDescription.poll (s : CreateSessionDescription)
    (calls : NativeCalls) : CreateSessionDescription × NativeCalls × PollOut :=
  if s.begin = false then
    let calls :=
      if s.kind = .Offer then
        { calls with rtc_create_offer := calls.rtc_create_offer + 1 }
      else
        { calls with rtc_create_answer := calls.rtc_create_answer + 1 }
    ({ s with begin := true }, calls, .pending)
  else
    (s, calls,
     .ready (if s.desc = 0 then .error .negotiationFailed else .ok s.desc))

/-- One public setter call on the `RTCIceServer` builder. -/
inductive IceServerOp
  | setCredential (s : List Nat)
  | setUsername (s : List Nat)
  | setUrls (us : List (List Nat))
deriving DecidableEq, Repr

/-- Apply one setter call to the builder. -/
def applyIceServerOp (m : Mem) (b : RTCIceServer) :
    IceServerOp → Except Panic (RTCIceServer × Mem)
  | .setCredential s => b.set_credential m s
  | .setUsername s => b.set_username m s
  | .setUrls us => b.set_urls m us

/-- Run a sequence of setter calls; a panic aborts the sequence. -/
def runIceServerOps : Mem → RTCIceServer → List IceServerOp →
    Except Panic (RTCIceServer × Mem)
  | m, b, [] => .ok (b, m)
  | m, b, op :: ops =>
    match applyIceServerOp m b op with
    | .error e => .error e
    | .ok (b', m') => runIceServerOps m' b' ops

/-- The builder state reached by the Claim C10 witness setter sequence. -/
def c10WitnessBuilder : RTCIceServer :=
  { credential := some ⟨1⟩, username := none, urls := some [2], raw_urls := [⟨2⟩] }

/-- The allocator state reached by the Claim C10 witness setter sequence. -/
def c10WitnessMem : Mem :=
  ⟨3, [(2, [104, 0]), (1, [99, 0])]⟩

/-! ## Helper lemmas about the allocator model -/

theorem Mem.lookup_alloc_self (m : Mem) (bs : List Nat) :
    ((m.alloc bs).2).lookup (m.alloc bs).1 = some bs := by
  simp [Mem.alloc, Mem.lookup, List.find?]

theorem Mem.lookup_alloc_ne (m : Mem) (bs : List Nat) (p : Nat) (h : p ≠ m.next) :
    ((m.alloc bs).2).lookup p = m.lookup p := by
  simp only [Mem.alloc, Mem.lookup, List.find?]
  have : (decide (m.next = p)) = false := by
    simp only [decide_eq_false_iff_not]
    exact fun hh => h hh.symm
  simp [this]

theorem Mem.free_next (m : Mem) (q : Nat) : (m.free q).next = m.next := rfl

theorem find?_filter_ne (l : List (Nat × List Nat)) (q p : Nat) (h : p ≠ q) :
    (l.filter (fun e => e.1 ≠ q)).find? (fun e => e.1 = p) =
      l.find? (fun e => e.1 = p) := by
  induction l with
  | nil => rfl
  | cons e l ih =>
    by_cases he : e.1 = q
    · have h2 : ¬((fun (e : Nat × List Nat) => decide (e.1 = p)) e = true) := by
        simp only [decide_eq_true_eq]
        intro hh
        exact h (by rw [← hh]; exact he)
      rw [List.filter_cons_of_neg (by simp [he]), List.find?_cons_of_neg l h2, ih]
    · by_cases hep : e.1 = p
      · rw [List.filter_cons_of_pos (by simp [he]),
          List.find?_cons_of_pos (List.filter (fun e => decide (e.1 ≠ q)) l)
            (by simp [hep]),
          List.find?_cons_of_pos l (by simp [hep])]
      · rw [List.filter_cons_of_pos (by simp [he]),
          List.find?_cons_of_neg (List.filter (fun e => decide (e.1 ≠ q)) l)
            (by simp [hep]),
          List.find?_cons_of_neg l (by simp [hep]), ih]

theorem Mem.lookup_free_ne (m : Mem) (q p : Nat) (h : p ≠ q) :
    (m.free q).lookup p = m.lookup p := by
  simp only [Mem.free, Mem.lookup]
  rw [find?_filter_ne _ _ _ h]

theorem lookup_foldl_free (l : List CString) (m : Mem) (p : Nat)
    (h : ∀ c ∈ l, c.ptr ≠ p) :
    (l.foldl (fun mm c => mm.free c.ptr) m).lookup p = m.lookup p := by
  induction l generalizing m with
  | nil => rfl
  | cons c l ih =>
    simp only [List.foldl_cons]
    rw [ih _ (fun c' hc' => h c' (List.mem_cons_of_mem _ hc'))]
    exact Mem.lookup_free_ne m c.ptr p
      (fun hh => h c (List.mem_cons_self _ _) hh.symm)

/-- Inversion principle for `cstringsNew`: a successful collection allocates
one fresh consecutive buffer per input (holding the input text followed by
the NUL terminator), leaves every older address untouched, and the returned
`CString`s point at those fresh buffers in order. -/
theorem cstringsNew_spec (us : List (List Nat)) :
    ∀ m cs m₁, cstringsNew m us = some (cs, m₁) →
      m₁.next = m.next + us.length ∧
      cs.length = us.length ∧
      (∀ i, i < us.length → (cs.map CString.as_ptr).getD i 0 = m.next + i) ∧
      (∀ p, p < m.next → m₁.lookup p = m.lookup p) ∧
      (∀ i, i < us.length → m₁.lookup (m.next + i) = some (us.getD i [] ++ [0])) := by
  induction us with
  | nil =>
    intro m cs m₁ h
    simp only [cstringsNew, Option.some.injEq, Prod.mk.injEq] at h
    obtain ⟨rfl, rfl⟩ := h
    refine ⟨by simp, rfl, ?_, fun p _ => rfl, ?_⟩ <;> intro i hi <;>
      rw [List.length_nil] at hi <;> omega
  | cons u rest ih =>
    intro m cs m₁ h
    simp only [cstringsNew, Option.bind_eq_some, Option.map_eq_some'] at h
    obtain ⟨⟨c, m'⟩, hnew, ⟨cs', m''⟩, hrest, heq⟩ := h
    simp only [Prod.mk.injEq] at heq
    obtain ⟨hcs, hm⟩ := heq
    subst hcs hm
    simp only [CString.new, Mem.alloc] at hnew
    by_cases h0 : 0 ∈ u
    · simp [h0] at hnew
    · rw [if_neg h0] at hnew
      simp only [Option.some.injEq, Prod.mk.injEq] at hnew
      obtain ⟨hc, hm'⟩ := hnew
      subst hc
      obtain ⟨ihnext, ihlen, ihptr, ihold, ihnew⟩ := ih m' cs' m'' hrest
      have hm'next : m'.next = m.next + 1 := by rw [← hm']
      have hm'heap : m'.heap = (m.next, u ++ [0]) :: m.heap := by rw [← hm']
      have lookup_m' : ∀ p, p ≠ m.next → m'.lookup p = m.lookup p := by
        intro p hp
        simp only [Mem.lookup, hm'heap]
        rw [List.find?_cons_of_neg m.heap
          (by simp only [decide_eq_true_eq]; exact fun hh => hp hh.symm)]
      have lookup_m'_self : m'.lookup m.next = some (u ++ [0]) := by
        simp only [Mem.lookup, hm'heap]
        rw [List.find?_cons_of_pos m.heap (by simp)]
        rfl
      refine ⟨?_, ?_, ?_, ?_, ?_⟩
      · rw [ihnext, hm'next, List.length_cons]
        omega
      · simp [ihlen]
      · intro i hi
        rw [List.length_cons] at hi
        cases i with
        | zero => simp [CString.as_ptr]
        | succ j =>
          simp only [List.map_cons, List.getD_cons_succ]
          rw [ihptr j (by omega), hm'next]
          omega
      · intro p hp
        rw [ihold p (by omega), lookup_m' p (by omega)]
      · intro i hi
        rw [List.length_cons] at hi
        cases i with
        | zero =>
          have h00 : m.next + 0 = m.next := by omega
          rw [h00, ihold m.next (by omega), lookup_m'_self]
          simp
        | succ j =>
          have hj : m.next + (j + 1) = m'.next + j := by omega
          rw [hj, ihnew j (by omega)]
          simp

/-- `cstringsNew` succeeds when no input holds an embedded NUL. -/
theorem cstringsNew_isSome (us : List (List Nat)) :
    ∀ m, (∀ u ∈ us, 0 ∉ u) → ∃ cs m₁, cstringsNew m us = some (cs, m₁) := by
  induction us with
  | nil =>
    intro m _
    exact ⟨[], m, rfl⟩
  | cons u rest ih =>
    intro m h
    have h0 : 0 ∉ u := h u (List.mem_cons_self _ _)
    have hnew : CString.new m u =
        some (⟨m.next⟩, ⟨m.next + 1, (m.next, u ++ [0]) :: m.heap⟩) := by
      simp [CString.new, Mem.alloc, h0]
    obtain ⟨cs, m₁, hrest⟩ := ih ⟨m.next + 1, (m.next, u ++ [0]) :: m.heap⟩
      (fun v hv => h v (List.mem_cons_of_mem _ hv))
    exact ⟨⟨m.next⟩ :: cs, m₁, by simp [cstringsNew, hnew, hrest]⟩

/-- `cstringsNew` panics (returns `none`) when some input holds an embedded
NUL byte. -/
theorem cstringsNew_none_of_mem (us : List (List Nat)) :
    ∀ m, (∃ u ∈ us, 0 ∈ u) → cstringsNew m us = none := by
  induction us with
  | nil =>
    intro m h
    simp at h
  | cons u rest ih =>
    intro m h
    by_cases h0 : 0 ∈ u
    · simp [cstringsNew, CString.new, h0]
    · obtain ⟨v, hv, hv0⟩ := h
      rcases List.mem_cons.mp hv with rfl | hvrest
      · exact absurd hv0 h0
      · have hrec := fun mm => ih mm ⟨v, hvrest, hv0⟩
        simp [cstringsNew, CString.new, h0, Mem.alloc, hrec]

/-- A single builder setter keeps the derived pointer array consistent with
the owned buffer vector. -/
theorem applyOp_preserves_consistency (m : Mem) (b : RTCIceServer)
    (op : IceServerOp) (b' : RTCIceServer) (m' : Mem)
    (hb : b.urls = none ∨ b.urls = some (b.raw_urls.map CString.as_ptr))
    (h : applyIceServerOp m b op = .ok (b', m')) :
    b'.urls = none ∨ b'.urls = some (b'.raw_urls.map CString.as_ptr) := by
  cases op with
  | setCredential s =>
    simp only [applyIceServerOp, RTCIceServer.set_credential] at h
    cases hn : CString.new m s with
    | none =>
      rw [hn] at h
      exact absurd h (by simp)
    | some cm =>
      obtain ⟨c, m2⟩ := cm
      rw [hn] at h
      simp only [Except.ok.injEq, Prod.mk.injEq] at h
      obtain ⟨hb', _⟩ := h
      subst hb'
      simpa using hb
  | setUsername s =>
    simp only [applyIceServerOp, RTCIceServer.set_username] at h
    cases hn : CString.new m s with
    | none =>
      rw [hn] at h
      exact absurd h (by simp)
    | some cm =>
      obtain ⟨c, m2⟩ := cm
      rw [hn] at h
      simp only [Except.ok.injEq, Prod.mk.injEq] at h
      obtain ⟨hb', _⟩ := h
      subst hb'
      simpa using hb
  | setUrls us =>
    simp only [applyIceServerOp, RTCIceServer.set_urls] at h
    cases hn : cstringsNew m us with
    | none =>
      rw [hn] at h
      exact absurd h (by simp)
    | some csm =>
      obtain ⟨cs, m₁⟩ := csm
      rw [hn] at h
      simp only [Except.ok.injEq, Prod.mk.injEq] at h
      obtain ⟨hb', _⟩ := h
      subst hb'
      right
      simp

/-- Running any sequence of setters from a consistent builder yields a
consistent builder. -/
theorem runOps_preserves_consistency (ops : List IceServerOp) :
    ∀ m b b' m', (b.urls = none ∨ b.urls = some (b.raw_urls.map CString.as_ptr)) →
      runIceServerOps m b ops = .ok (b', m') →
      (b'.urls = none ∨ b'.urls = some (b'.raw_urls.map CString.as_ptr)) := by
  induction ops with
  | nil =>
    intro m b b' m' hb h
    simp only [runIceServerOps, Except.ok.injEq, Prod.mk.injEq] at h
    obtain ⟨rfl, rfl⟩ := h
    exact hb
  | cons op ops ih =>
    intro m b b' m' hb h
    simp only [runIceServerOps] at h
    cases hop : applyIceServerOp m b op with
    | error e =>
      rw [hop] at h
      exact absurd h (by simp)
    | ok bm =>
      obtain ⟨b₂, m₂⟩ := bm
      rw [hop] at h
      exact ih m₂ b₂ b' m' (applyOp_preserves_consistency m b op b₂ m₂ hb hop) h

/-! ## Claim theorems -/

/-- Claim C1 (code bug, evaluated at the failing input): when the native
completion callback is invoked with a NON-null description pointer (here 5)
on a started offer awaitable, the trampoline's inverted guard
`if desc.is_null()` skips the stored closure entirely: the shared slot is
not written, no wake is delivered (the state is unchanged), and a subsequent
poll resolves to the negotiation-failure error instead of the typed
description — contradicting the claim that a non-null result is stored,
wakes the waker, and resolves to a matching session description. -/
theorem callback_nonnull_result_dropped :
    (CreateSessionDescription.callback
        { kind := .Offer, peer := 1, desc := 0, waker_wakes := 0, begin := true } 5 =
      { kind := .Offer, peer := 1, desc := 0, waker_wakes := 0, begin := true }) ∧
    ((CreateSessionDescription.callback
        { kind := .Offer, peer := 1, desc := 0, waker_wakes := 0, begin := true } 5).poll
        ⟨1, 0⟩).2.2 = .ready (.error .negotiationFailed) :=
  ⟨rfl, rfl⟩

/-- Claim C2 (counterexample to the claim as stated): on the concrete input
`"a\x00b"` (bytes 97, 0, 98) every text setter aborts with a Rust panic —
modelled as `Except.error Panic.nulError`, the `unwrap()` of `CString::new`
on `NulError` — rather than returning an `InvalidText` error value to the
caller; the setters' Rust signatures return `()` and can surface no error. -/
theorem text_setters_nul_panic_counterexample :
    RTCIceServer.set_credential Mem.empty RTCIceServer.default [97, 0, 98] =
      .error .nulError ∧
    RTCIceServer.set_username Mem.empty RTCIceServer.default [97, 0, 98] =
      .error .nulError ∧
    RTCIceServer.set_urls Mem.empty RTCIceServer.default [[97, 0, 98]] =
      .error .nulError ∧
    RTCConfiguration.set_peer_identity Mem.empty RTCConfiguration.default [97, 0, 98] =
      .error .nulError :=
  ⟨rfl, rfl, rfl, rfl⟩

/-- Claim C2 (amended): for every text input containing an embedded null
byte, each text setter (set_credential, set_username, set_urls,
set_peer_identity) panics via `CString::new(..).unwrap()` (modelled as
`Except.error Panic.nulError`) before any native call could be made; no
`InvalidText` error value is returned. -/
theorem text_setters_panic_on_embedded_nul
    (m : Mem) (b : RTCIceServer) (cfg : RTCConfiguration)
    (s : List Nat) (hs : 0 ∈ s)
    (us : List (List Nat)) (hus : ∃ u ∈ us, 0 ∈ u) :
    b.set_credential m s = .error .nulError ∧
    b.set_username m s = .error .nulError ∧
    b.set_urls m us = .error .nulError ∧
    cfg.set_peer_identity m s = .error .nulError := by
  have hnew : CString.new m s = none := by simp [CString.new, hs]
  have hcs : cstringsNew m us = none := cstringsNew_none_of_mem us m hus
  refine ⟨?_, ?_, ?_, ?_⟩
  · simp [RTCIceServer.set_credential, hnew]
  · simp [RTCIceServer.set_username, hnew]
  · simp [RTCIceServer.set_urls, hcs]
  · simp [RTCConfiguration.set_peer_identity, hnew]

/-- Witness for the amended Claim C2 at the concrete input `[0]`. -/
theorem text_setters_panic_on_embedded_nul_witness :
    ((0 : Nat) ∈ ([0] : List Nat)) ∧ (∃ u ∈ [[(0 : Nat)]], 0 ∈ u) ∧
    (RTCIceServer.set_credential Mem.empty RTCIceServer.default [0] =
        .error .nulError ∧
      RTCIceServer.set_username Mem.empty RTCIceServer.default [0] =
        .error .nulError ∧
      RTCIceServer.set_urls Mem.empty RTCIceServer.default [[0]] =
        .error .nulError ∧
      RTCConfiguration.set_peer_identity Mem.empty RTCConfiguration.default [0] =
        .error .nulError) :=
  ⟨by decide, by decide,
   text_setters_panic_on_embedded_nul Mem.empty RTCIceServer.default
     RTCConfiguration.default [0] (by decide) [[0]] (by decide)⟩

/-- Claim C3: when the native `create_rtc_peer_connection` entry point
returns a null pointer for the materialized configuration snapshot,
`RTCPeerConnection::new` returns the `ConnectionCreationFailed` error
(`anyhow!("crate RTCPeerConnection failed!")`); no handle value is produced
(the result is `Except.error`, not `Except.ok`), and the total Lean function
shows the path is panic-free. -/
theorem null_native_creation_yields_error
    (native : raw.RTCPeerConnectionConfigure → Nat) (config : RTCConfiguration)
    (h : native config.as_raw = 0) :
    RTCPeerConnection.new native config = .error .connectionCreationFailed := by
  simp [RTCPeerConnection.new, h]

/-- Witness for Claim C3 with the always-null native oracle and the default
configuration. -/
theorem null_native_creation_yields_error_witness :
    ((fun _ : raw.RTCPeerConnectionConfigure => (0 : Nat))
        RTCConfiguration.default.as_raw = 0) ∧
    RTCPeerConnection.new (fun _ => 0) RTCConfiguration.default =
      .error .connectionCreationFailed :=
  ⟨rfl, null_native_creation_yields_error (fun _ => 0) RTCConfiguration.default rfl⟩

/-- Claim C4: driving an offer awaitable to completion — first poll (starts
the native call), completion callback with an arbitrary payload pointer,
resolving poll — invokes `rtc_create_offer` exactly once (and
`rtc_create_answer` not at all), and polling again after resolution returns
the same resolved (non-pending) outcome with no further native invocation. -/
theorem offer_drive_invokes_native_once (pc : RTCPeerConnection)
    (calls : NativeCalls) (p : Nat) :
    (((pc.create_offer).poll calls).2.2 = .pending) ∧
    (((pc.create_offer).poll calls).2.1.rtc_create_offer =
      calls.rtc_create_offer + 1) ∧
    (((pc.create_offer).poll calls).2.1.rtc_create_answer =
      calls.rtc_create_answer) ∧
    (((((pc.create_offer).poll calls).1.callback p).poll
        ((pc.create_offer).poll calls).2.1).2.1 =
      ((pc.create_offer).poll calls).2.1) ∧
    (((((pc.create_offer).poll calls).1.callback p).poll
        ((pc.create_offer).poll calls).2.1).2.2 ≠ PollOut.pending) ∧
    ((((((pc.create_offer).poll calls).1.callback p).poll
          ((pc.create_offer).poll calls).2.1).1.poll
        ((((pc.create_offer).poll calls).1.callback p).poll
          ((pc.create_offer).poll calls).2.1).2.1).2.1 =
      ((pc.create_offer).poll calls).2.1) ∧
    ((((((pc.create_offer).poll calls).1.callback p).poll
          ((pc.create_offer).poll calls).2.1).1.poll
        ((((pc.create_offer).poll calls).1.callback p).poll
          ((pc.create_offer).poll calls).2.1).2.1).2.2 =
      ((((pc.create_offer).poll calls).1.callback p).poll
        ((pc.create_offer).poll calls).2.1).2.2) := by
  by_cases hp : p = 0
  · subst hp
    exact ⟨rfl, rfl, rfl, rfl, fun h => PollOut.noConfusion h, rfl, rfl⟩
  · simp only [RTCPeerConnection.create_offer, CreateSessionDescription.new,
      CreateSessionDescription.poll, CreateSessionDescription.callback,
      if_neg hp]
    exact ⟨rfl, rfl, rfl, rfl, fun h => PollOut.noConfusion h, rfl, rfl⟩

/-- Claim C5: after the native completion callback fires with a null result
pointer (storing null into the shared slot and waking the waker), the next
poll of the started awaitable resolves to the `NegotiationFailed` error
(`anyhow!("create offer failed!")`). -/
theorem null_callback_resolves_negotiation_failed
    (s : CreateSessionDescription) (calls : NativeCalls) (h : s.begin = true) :
    (s.callback 0).waker_wakes = s.waker_wakes + 1 ∧
    ((s.callback 0).poll calls).2.2 = .ready (.error .negotiationFailed) := by
  constructor
  · simp [CreateSessionDescription.callback]
  · simp [CreateSessionDescription.callback, CreateSessionDescription.poll, h]

/-- Witness for Claim C5 at a concrete started awaitable. -/
theorem null_callback_resolves_negotiation_failed_witness :
    (({ kind := .Offer, peer := 1, desc := 0, waker_wakes := 0, begin := true } :
        CreateSessionDescription).begin = true) ∧
    ((({ kind := .Offer, peer := 1, desc := 0, waker_wakes := 0, begin := true } :
        CreateSessionDescription).callback 0).waker_wakes = 0 + 1 ∧
      ((({ kind := .Offer, peer := 1, desc := 0, waker_wakes := 0, begin := true } :
          CreateSessionDescription).callback 0).poll ⟨1, 0⟩).2.2 =
        .ready (.error .negotiationFailed)) :=
  ⟨rfl, null_callback_resolves_negotiation_failed
    { kind := .Offer, peer := 1, desc := 0, waker_wakes := 0, begin := true }
    ⟨1, 0⟩ rfl⟩

/-- Claim C6 (code bug, evaluated on the code): for every native-returned
session description taken over by `RTCSessionDescription::from_raw`, the sdp
buffer's release is bound — through `CString::from_raw` — to the Rust global
allocator's deallocation (`CString`'s `Drop`), which is mismatched to the
native allocator, and the binding layer contains zero `rtc_free` call sites;
the claim that the payload is released exactly once through `rtc_free` fails. -/
theorem native_description_sdp_freed_by_rust_allocator
    (r : raw.RTCSessionDescription) :
    (RTCSessionDescription.from_raw r).sdp.dropDeallocator = Deallocator.rustGlobal ∧
    Deallocator.rustGlobal ≠ Deallocator.rtcFree ∧
    rtcFreeCallSitesInBindingLayer = 0 :=
  ⟨rfl, fun h => Deallocator.noConfusion h, rfl⟩

/-- Claim C7: for a list of N NUL-free URL strings, `set_urls` succeeds and
the derived pointer array has exactly N entries, the i-th entry pointing at
a live buffer holding the i-th input followed by the NUL terminator, and
`as_raw` reports `urls_size = N`. (The freshness hypothesis on the builder's
previously owned buffers reflects that they were allocated earlier.) -/
theorem set_urls_builds_n_entry_array
    (m : Mem) (b : RTCIceServer) (us : List (List Nat))
    (hnul : ∀ u ∈ us, 0 ∉ u)
    (hb : ∀ c ∈ b.raw_urls, c.ptr < m.next) :
    ∃ b' m', b.set_urls m us = .ok (b', m') ∧
      ∃ ps, b'.urls = some ps ∧
        ps.length = us.length ∧
        (∀ i, i < us.length → m'.lookup (ps.getD i 0) = some (us.getD i [] ++ [0])) ∧
        b'.as_raw.urls_size = (us.length : Int) := by
  obtain ⟨cs, m₁, hcs⟩ := cstringsNew_isSome us m hnul
  obtain ⟨hnext, hlen, hptr, hold, hnewl⟩ := cstringsNew_spec us m cs m₁ hcs
  refine ⟨{ b with raw_urls := cs, urls := some (cs.map CString.as_ptr) },
    b.raw_urls.foldl (fun mm c => mm.free c.ptr) m₁, ?_,
    cs.map CString.as_ptr, rfl, ?_, ?_, ?_⟩
  · simp [RTCIceServer.set_urls, hcs]
  · simp [hlen]
  · intro i hi
    rw [hptr i hi,
      lookup_foldl_free _ _ _ (fun c hc => by have := hb c hc; omega)]
    exact hnewl i hi
  · simp [RTCIceServer.as_raw, hlen]

/-- Witness for Claim C7 on the concrete input list `[[104, 105]]` from the
default builder and empty allocator. -/
theorem set_urls_builds_n_entry_array_witness :
    (∀ u ∈ [[(104 : Nat), 105]], (0 : Nat) ∉ u) ∧
    (∀ c ∈ RTCIceServer.default.raw_urls, c.ptr < Mem.empty.next) ∧
    (∃ b' m', RTCIceServer.set_urls Mem.empty RTCIceServer.default [[104, 105]] =
        .ok (b', m') ∧
      ∃ ps, b'.urls = some ps ∧
        ps.length = ([[(104 : Nat), 105]] : List (List Nat)).length ∧
        (∀ i, i < ([[(104 : Nat), 105]] : List (List Nat)).length →
          m'.lookup (ps.getD i 0) =
            some ((([[(104 : Nat), 105]] : List (List Nat)).getD i []) ++ [0])) ∧
        b'.as_raw.urls_size = (([[(104 : Nat), 105]] : List (List Nat)).length : Int)) :=
  ⟨by decide, by decide,
   set_urls_builds_n_entry_array Mem.empty RTCIceServer.default [[104, 105]]
     (by decide) (by decide)⟩

/-- Claim C8 (code bug, evaluated at the failing input): polling a started
offer awaitable again while the shared slot is still empty (no completion
callback has fired) does NOT report not-ready: `poll` re-reads the slot but
treats the empty (null) slot as failure and resolves to
`Poll::Ready(Err(..))`, contradicting the claim that a spurious wake is
answered with not-ready. -/
theorem started_poll_with_empty_slot_resolves :
    ((CreateSessionDescription.new 1 .Offer).poll ⟨0, 0⟩).2.2 = .pending ∧
    ((((CreateSessionDescription.new 1 .Offer).poll ⟨0, 0⟩).1.poll
        ((CreateSessionDescription.new 1 .Offer).poll ⟨0, 0⟩).2.1).2.2 =
      .ready (.error .negotiationFailed)) ∧
    ((((CreateSessionDescription.new 1 .Offer).poll ⟨0, 0⟩).1.poll
        ((CreateSessionDescription.new 1 .Offer).poll ⟨0, 0⟩).2.1).2.2 ≠
      PollOut.pending) :=
  ⟨rfl, rfl, fun h => PollOut.noConfusion h⟩

/-- Claim C9 (code bug, evaluated at the failing input): build an ICE-server
builder owning one URL buffer (address 1, contents "st\x00"), then install it
with `set_ice_servers`. The configuration stores a raw view whose pointer
array still names address 1, but `set_ice_servers` consumed and dropped the
builder vector, freeing that buffer: address 1 is no longer live, so the
owned buffers do NOT outlive the derived pointer views stored in the
configuration. -/
theorem ice_server_buffers_freed_while_view_stored :
    (RTCIceServer.set_urls Mem.empty RTCIceServer.default [[115, 116]] =
      .ok ({ credential := none, username := none, urls := some [1],
             raw_urls := [⟨1⟩] },
           ⟨2, [(1, [115, 116, 0])]⟩)) ∧
    ((RTCConfiguration.set_ice_servers ⟨2, [(1, [115, 116, 0])]⟩
        RTCConfiguration.default
        [{ credential := none, username := none, urls := some [1],
           raw_urls := [⟨1⟩] }]).1.ice_servers =
      some [{ credential := none, urls := some [1], urls_size := 1,
              username := none }]) ∧
    ((RTCConfiguration.set_ice_servers ⟨2, [(1, [115, 116, 0])]⟩
        RTCConfiguration.default
        [{ credential := none, username := none, urls := some [1],
           raw_urls := [⟨1⟩] }]).2.live 1 = false) :=
  ⟨rfl, rfl, rfl⟩

/-- Claim C10: after any sequence of setter calls on a default builder that
completes without a panic, the derived URL pointer array is consistent with
the owned buffer vector: either `urls` is unset — and `as_raw` yields a null
`urls` field with `urls_size` 0 — or `urls` is exactly the address list of
the owned `raw_urls` buffers and `urls_size` equals their count. -/
theorem ice_server_builder_urls_invariant
    (ops : List IceServerOp) (m m' : Mem) (b' : RTCIceServer)
    (h : runIceServerOps m RTCIceServer.default ops = .ok (b', m')) :
    (b'.urls = none ∧ b'.as_raw.urls = none ∧ b'.as_raw.urls_size = 0) ∨
    (b'.urls = some (b'.raw_urls.map CString.as_ptr) ∧
      b'.as_raw.urls_size = (b'.raw_urls.length : Int)) := by
  have hcons := runOps_preserves_consistency ops m RTCIceServer.default b' m'
    (Or.inl rfl) h
  cases hcons with
  | inl hnone =>
    left
    exact ⟨hnone, by simp [RTCIceServer.as_raw, hnone],
      by simp [RTCIceServer.as_raw, hnone]⟩
  | inr hsome =>
    right
    exact ⟨hsome, by simp [RTCIceServer.as_raw, hsome]⟩

/-- Witness for Claim C10 on the concrete setter sequence
`[set_credential "c", set_urls ["h"]]`. -/
theorem ice_server_builder_urls_invariant_witness :
    (runIceServerOps Mem.empty RTCIceServer.default
        [.setCredential [99], .setUrls [[104]]] =
      .ok (c10WitnessBuilder, c10WitnessMem)) ∧
    ((c10WitnessBuilder.urls = none ∧
      c10WitnessBuilder.as_raw.urls = none ∧
      c10WitnessBuilder.as_raw.urls_size = 0) ∨
     (c10WitnessBuilder.urls =
        some (c10WitnessBuilder.raw_urls.map CString.as_ptr) ∧
      c10WitnessBuilder.as_raw.urls_size =
        (c10WitnessBuilder.raw_urls.length : Int))) :=
  ⟨by rfl,
   ice_server_builder_urls_invariant [.setCredential [99], .setUrls [[104]]]
     Mem.empty c10WitnessMem c10WitnessBuilder (by rfl)⟩
